import Mathlib

/-
Verification development for the RAG-augmented response pipeline of a
threaded chat application.  The TypeScript sources are embedded shallowly:
pure string utilities become Lean functions on String (viewed as lists of
characters), network calls are represented by explicit outcome parameters,
and every service method is a total Lean function.  All inputs relevant to
the verified claims are ASCII, so JavaScript string operations are modelled
at the character level: toLowerCase maps ASCII capitals, trim strips ASCII
whitespace from both ends, includes is substring containment, and length
counts characters (which equals the JS UTF-16 length on ASCII text).
-/

/-- ASCII whitespace characters removed by the JavaScript trim operation. -/
def jsWhitespaceChar (c : Char) : Bool :=
  c == ' ' || c == '\t' || c == '\n' || c == '\r' || c == '\x0b' || c == '\x0c'

/-- Model of the JavaScript trim operation: drop whitespace from both ends. -/
def jsTrim (s : String) : String :=
  ⟨((s.data.dropWhile jsWhitespaceChar).reverse.dropWhile jsWhitespaceChar).reverse⟩

/-- Model of the JavaScript toLowerCase operation on ASCII text. -/
def jsToLower (s : String) : String :=
  ⟨s.data.map Char.toLower⟩

/-- Model of the JavaScript string length (UTF-16 units; characters on ASCII). -/
def jsLength (s : String) : Nat :=
  s.data.length

/-- Substring containment on character lists, first argument is the needle. -/
def containsSub (sub : List Char) : List Char → Bool
  | [] => sub.isEmpty
  | c :: rest => sub.isPrefixOf (c :: rest) || containsSub sub rest

/-- Model of the JavaScript includes operation: sub occurs inside hay. -/
def jsIncludes (hay sub : String) : Bool :=
  containsSub sub.data hay.data

/-- Matcher for an anchored regular expression of shape stem then one or more
copies of a single character (for example hi with a repeatable i). -/
def matchStemPlus (stem : String) (c : Char) (s : String) : Bool :=
  stem.data.isPrefixOf s.data &&
    (let rest := s.data.drop stem.data.length
     !rest.isEmpty && rest.all (· == c))

namespace MessageUtils

/-- Embeds isTrivialMessage from messageUtils.ts: the trimmed, lowercased
content is tested against the fixed anchored trivial patterns. -/
def isTrivialMessage (content : String) : Bool :=
  let t := jsToLower (jsTrim content)
  matchStemPlus "h" 'i' t ||
  matchStemPlus "hell" 'o' t ||
  matchStemPlus "he" 'y' t ||
  matchStemPlus "y" 'o' t ||
  matchStemPlus "su" 'p' t ||
  (t == "how are you" || t == "how are you?") ||
  (t == "what\x27s up" || t == "what\x27s up?") ||
  matchStemPlus "o" 'k' t ||
  matchStemPlus "oka" 'y' t ||
  matchStemPlus "tes" 't' t ||
  t == "ping"

end MessageUtils

namespace EmbeddingUtils

/-- Embeds the private isTrivialMessage copy inside embeddingUtils.ts; the
source pattern list is character for character the one in messageUtils.ts. -/
def isTrivialMessage (content : String) : Bool :=
  let t := jsToLower (jsTrim content)
  matchStemPlus "h" 'i' t ||
  matchStemPlus "hell" 'o' t ||
  matchStemPlus "he" 'y' t ||
  matchStemPlus "y" 'o' t ||
  matchStemPlus "su" 'p' t ||
  (t == "how are you" || t == "how are you?") ||
  (t == "what\x27s up" || t == "what\x27s up?") ||
  matchStemPlus "o" 'k' t ||
  matchStemPlus "oka" 'y' t ||
  matchStemPlus "tes" 't' t ||
  t == "ping"

/-- The question indicator list of shouldUseSemanticSearch in embeddingUtils.ts. -/
def questionIndicators : List String :=
  ["?", "what", "how", "why", "when", "where", "who", "which", "can you",
   "could you", "tell me", "explain", "describe", "find", "search", "help me with"]

/-- Embeds shouldUseSemanticSearch from embeddingUtils.ts. -/
def shouldUseSemanticSearch (content : String) : Bool :=
  if jsLength (jsTrim content) < 10 then false
  else if isTrivialMessage content then false
  else questionIndicators.any (fun ind => jsIncludes (jsToLower content) ind)

end EmbeddingUtils

/-- Comparison definition following the words of the specification: the
trimmed, case folded content must equal one of the fixed fillers as a whole
string, allowing repeated trailing letters on the single word fillers and an
optional question mark on the phrase fillers. -/
def specTrivialFiller (content : String) : Bool :=
  let t := jsToLower (jsTrim content)
  matchStemPlus "h" 'i' t ||
  matchStemPlus "hell" 'o' t ||
  matchStemPlus "he" 'y' t ||
  matchStemPlus "y" 'o' t ||
  matchStemPlus "su" 'p' t ||
  (t == "how are you" || t == "how are you?") ||
  (t == "what\x27s up" || t == "what\x27s up?") ||
  matchStemPlus "o" 'k' t ||
  matchStemPlus "oka" 'y' t ||
  matchStemPlus "tes" 't' t ||
  t == "ping"

/-- Outcome of one HTTP call to the external service: the parsed response
body on success, or a transport failure (the optional string carries the
axios error message, none for a non axios failure). -/
inductive Transport (α : Type) where
  | ok (resp : α)
  | failed (axiosMsg : Option String)
deriving DecidableEq

/-- Response shape of the embed endpoint, embeddingService.ts.  The optional
vector field is a float array never inspected by the pipeline; it is omitted
from the model. -/
structure EmbeddingResponse where
  status : String
  error : Option String := none
deriving DecidableEq

/-- Response shape of the rag-generate endpoint, embeddingService.ts.  The
optional matches field carries floating point scores and is never read by the
modelled operations; it is omitted. -/
structure RAGResponse where
  answer : String
  context : String
deriving DecidableEq

/-- JavaScript truthiness of an optional string: undefined and the empty
string are falsy. -/
def truthyStr : Option String → Bool
  | none => false
  | some s => !(s == "")

/-- JavaScript or-else on optional strings, as in apiUrl or env fallback. -/
def jsOrStr (a b : Option String) : Option String :=
  if truthyStr a then a else b

/-- The EmbeddingService instance state: only the resolved API URL.  No
method ever mutates it, so the enabled or disabled state fixed at
construction holds for the lifetime of the instance. -/
structure EmbeddingService where
  apiUrl : Option String
deriving DecidableEq

namespace EmbeddingService

/-- Embeds the constructor of embeddingService.ts: the argument falls back to
the EMBEDDING_API_URL environment variable, and enabled is its truthiness. -/
def init (ctorUrl envUrl : Option String) : EmbeddingService :=
  { apiUrl := jsOrStr ctorUrl envUrl }

/-- Embeds isEnabled of embeddingService.ts. -/
def isEnabled (svc : EmbeddingService) : Bool :=
  truthyStr svc.apiUrl

/-- Embeds createEmbedding of embeddingService.ts.  The returned Bool records
whether a network call was attempted. -/
def createEmbedding (svc : EmbeddingService)
    (transport : Transport EmbeddingResponse) : EmbeddingResponse × Bool :=
  if !svc.isEnabled then
    ({ status := "error",
       error := some "Embedding Service is disabled: No API URL available" }, false)
  else
    match transport with
    | .ok r => (r, true)
    | .failed (some m) =>
        ({ status := "error", error := some ("API error: " ++ m) }, true)
    | .failed none =>
        ({ status := "error", error := some "Failed to create embedding" }, true)

/-- Embeds getRAGResponse of embeddingService.ts.  The returned Bool records
whether a network call was attempted. -/
def getRAGResponse (svc : EmbeddingService)
    (transport : Transport RAGResponse) : RAGResponse × Bool :=
  if !svc.isEnabled then
    ({ answer := "I couldn\x27t access my extended knowledge at the moment. The embedding service is not configured.",
       context := "Embedding Service disabled: No API URL available" }, false)
  else
    match transport with
    | .ok r => (r, true)
    | .failed _ =>
        ({ answer := "I couldn\x27t retrieve relevant information at the moment. How else can I assist you?",
           context := "Error retrieving context" }, true)

/-- Embeds the private isTrivialMessage method of embeddingService.ts; the
source pattern list is character for character the one in messageUtils.ts. -/
def isTrivialMessage (content : String) : Bool :=
  let t := jsToLower (jsTrim content)
  matchStemPlus "h" 'i' t ||
  matchStemPlus "hell" 'o' t ||
  matchStemPlus "he" 'y' t ||
  matchStemPlus "y" 'o' t ||
  matchStemPlus "su" 'p' t ||
  (t == "how are you" || t == "how are you?") ||
  (t == "what\x27s up" || t == "what\x27s up?") ||
  matchStemPlus "o" 'k' t ||
  matchStemPlus "oka" 'y' t ||
  matchStemPlus "tes" 't' t ||
  t == "ping"

/-- The question indicator list of the private shouldUseSemanticSearch method
of embeddingService.ts (identical to the embeddingUtils.ts list). -/
def questionIndicators : List String :=
  ["?", "what", "how", "why", "when", "where", "who", "which", "can you",
   "could you", "tell me", "explain", "describe", "find", "search", "help me with"]

/-- Embeds the private shouldUseSemanticSearch method of embeddingService.ts. -/
def shouldUseSemanticSearch (content : String) : Bool :=
  if jsLength (jsTrim content) < 10 then false
  else if isTrivialMessage content then false
  else questionIndicators.any (fun ind => jsIncludes (jsToLower content) ind)

/-- Embeds enhancePromptWithRAG of embeddingService.ts, instrumented: the Nat
counts RAG retrieval invocations made by the enhancement.  The catch branch of
the source is unreachable in this model because getRAGResponse is total. -/
def enhancePromptWithRAGTr (svc : EmbeddingService) (query : String)
    (transport : Transport RAGResponse) : String × Nat :=
  if !svc.isEnabled || !shouldUseSemanticSearch query then (query, 0)
  else
    let ragResponse := (svc.getRAGResponse transport).1
    let relevantContext := ragResponse.context
    (String.intercalate "\n"
      ["### Relevant Previous Information:", relevantContext,
       "\n### Current User Query:", query], 1)

/-- Embeds enhancePromptWithRAG of embeddingService.ts (returned prompt). -/
def enhancePromptWithRAG (svc : EmbeddingService) (query : String)
    (transport : Transport RAGResponse) : String :=
  (svc.enhancePromptWithRAGTr query transport).1

end EmbeddingService

/-- A role tagged chat message as sent to the chat completion API. -/
structure ChatMsg where
  role : String
  content : String
deriving DecidableEq

/-- A conversation turn as consumed by generateResponse (an IMessage or a
plain object): content, sender marker, optional userId, creation time. -/
structure Turn where
  content : String
  sender : String
  userId : Option String := none
  createdAt : Nat := 0
deriving DecidableEq

/-- Outcome of one chat completion API call: the optional message content on
success (none when the provider returns no content), or a thrown error. -/
inductive ApiOutcome where
  | ok (content : Option String)
  | failed
deriving DecidableEq

namespace OpenAIService

/-- The per turn context length ceiling of openai.ts. -/
def MAX_CONTEXT_LENGTH : Nat := 4000

/-- Embeds the per turn truncation of openai.ts: content longer than the
ceiling is cut and a truncation marker is appended. -/
def truncateContent (c : String) : String :=
  if jsLength c > MAX_CONTEXT_LENGTH then
    (⟨c.data.take MAX_CONTEXT_LENGTH⟩ : String) ++ "... [content truncated]"
  else c

/-- Embeds the history formatting of openai.ts: a system sender becomes an
assistant message, everything else a user message; content is truncated. -/
def formatTurn (msg : Turn) : ChatMsg :=
  { role := if msg.sender == "system" then "assistant" else "user"
    content := truncateContent msg.content }

/-- Embeds the message sequence assembly of generateResponse in openai.ts:
leading system message, formatted history in input order, then the enhanced
prompt as the final user message. -/
def assembleMessages (sys : ChatMsg) (context : List Turn)
    (enhancedPrompt : String) : List ChatMsg :=
  sys :: context.map formatTurn ++ [{ role := "user", content := enhancedPrompt }]

/-- Embeds the system message construction of the RAG integrated openai.ts:
base persona text plus the memory snippet block when snippets were found. -/
def systemMessage1 (memorySnippets : List String) : ChatMsg :=
  let memoryContext :=
    if memorySnippets.isEmpty then ""
    else "Here are some things the user said previously:\n" ++
      String.intercalate "\n" memorySnippets
  { role := "system"
    content := "You are a helpful and friendly AI assistant." ++
      (if memoryContext == "" then "" else "\n\n" ++ memoryContext) }

/-- Embeds generateMockResponse of openai.ts (identical in both versions of
the file): a deterministic keyword classifier over the lowercased input. -/
def generateMockResponse (userMessage : String) : String :=
  let message := jsToLower userMessage
  if jsIncludes message "hello" || jsIncludes message "hi" then
    "Hello! How can I assist you today?"
  else if jsIncludes message "help" then
    "I\x27m here to help! What specific information are you looking for?"
  else if jsIncludes message "bye" || jsIncludes message "goodbye" then
    "Goodbye! Feel free to return if you have more questions."
  else if jsIncludes message "thanks" || jsIncludes message "thank you" then
    "You\x27re welcome! Is there anything else I can help with?"
  else if jsLength message < 10 then
    "Could you please provide more details so I can better assist you?"
  else
    "I received your message."

/-- Environment of one generateResponse invocation of the RAG integrated
openai.ts: mock mode flag, the embedded EmbeddingService instance, the
outcomes of the external calls the invocation may make, and the memory
snippets returned by the database query. -/
structure GenEnv where
  useMock : Bool
  svc : EmbeddingService
  ragTransport : Transport RAGResponse
  respEmbedTransport : Transport EmbeddingResponse
  primary : ApiOutcome
  memorySnippets : List String
deriving DecidableEq

/-- Result of one generateResponse invocation, instrumented with the message
sequence sent to the chat completion API and counters of the embedding client
operations performed (embedding creations and RAG retrievals). -/
structure GenResult where
  text : String
  sent : List ChatMsg
  embedCalls : Nat
  ragCalls : Nat
deriving DecidableEq

/-- Embeds generateResponse of the RAG integrated openai.ts.  Mock mode short
circuits; otherwise the first context entry with a truthy userId supplies the
user id, RAG enhancement runs only when the embedding service is enabled and
a user id was found, the assembled sequence is sent, a failed call falls back
to the mock responder, and a successful long response is re-embedded under
the same gate. -/
def generateResponse (env : GenEnv) (userMessage : String)
    (context : List Turn) : GenResult :=
  if env.useMock then
    { text := generateMockResponse userMessage, sent := [], embedCalls := 0, ragCalls := 0 }
  else
    let userId :=
      match context.find? (fun m => truthyStr m.userId) with
      | some m => m.userId.getD ""
      | none => ""
    let enhanced :=
      if env.svc.isEnabled && !(userId == "") then
        env.svc.enhancePromptWithRAGTr userMessage env.ragTransport
      else (userMessage, 0)
    let messages := assembleMessages (systemMessage1 env.memorySnippets) context enhanced.1
    match env.primary with
    | .failed =>
        { text := generateMockResponse userMessage, sent := messages,
          embedCalls := 0, ragCalls := enhanced.2 }
    | .ok c =>
        let response := c.getD "I could not generate a response."
        let respEmbeds :=
          if env.svc.isEnabled && !(userId == "") && decide (jsLength response > 20) then
            let _call := env.svc.createEmbedding env.respEmbedTransport
            1
          else 0
        { text := response, sent := messages,
          embedCalls := respEmbeds, ragCalls := enhanced.2 }

end OpenAIService

namespace OpenAIServiceV2

/-- The fixed system message of the second version of openai.ts. -/
def systemMessage2 : ChatMsg :=
  { role := "system"
    content := "You are a helpful and friendly AI assistant. If the user has provided image analysis results in their message, use that information to answer their query. Be concise and clear in your responses." }

/-- The image analysis markers tested by the second version of openai.ts. -/
def hasImageMarkers (m : String) : Bool :=
  jsIncludes m "This image contains:" || jsIncludes m "Text in the image:" ||
    jsIncludes m "Objects detected:"

/-- Result of one invocation of the retrying generateResponse, instrumented
with whether the simplified context retry ran and the sequence it sent. -/
structure GenV2Result where
  text : String
  retried : Bool
  retrySent : Option (List ChatMsg)
deriving DecidableEq

/-- Embeds the configured client path of generateResponse in the second
version of openai.ts: assemble system plus formatted history plus the user
message; on primary failure, retry once with only the first and last
assembled messages when more than two messages were assembled, falling back
to the mock responder if the retry also fails; with two or fewer messages no
retry runs and the fallback is an image analysis notice or the mock reply. -/
def generateResponse (userMessage : String) (context : List Turn)
    (primary retry : ApiOutcome) : GenV2Result :=
  let messages := OpenAIService.assembleMessages systemMessage2 context userMessage
  match primary with
  | .ok c =>
      { text := c.getD "I apologize, but I was unable to generate a response."
        retried := false, retrySent := none }
  | .failed =>
      if messages.length > 2 then
        let simplified := [messages.getD 0 ⟨"", ""⟩,
                           messages.getD (messages.length - 1) ⟨"", ""⟩]
        match retry with
        | .ok c =>
            { text := c.getD "I apologize, but I was unable to process your request with the full context. Here is a response to your most recent message."
              retried := true, retrySent := some simplified }
        | .failed =>
            { text := OpenAIService.generateMockResponse userMessage
              retried := true, retrySent := some simplified }
      else if hasImageMarkers userMessage then
        { text := "I was unable to process the image analysis results with the AI. Please try again or provide a text description."
          retried := false, retrySent := none }
      else
        { text := OpenAIService.generateMockResponse userMessage
          retried := false, retrySent := none }

end OpenAIServiceV2

namespace MessagesRoute

/-- A persisted message as returned by the database query of the POST route.
The Message schema of message.ts declares threadId, content, sender and
files; mongoose strict mode stores no other path, so loaded documents carry
no userId field. -/
structure DbMessage where
  content : String
  sender : String
  createdAt : Nat := 0
deriving DecidableEq

/-- A database message viewed as a conversation turn: no userId field. -/
def dbToTurn (m : DbMessage) : Turn :=
  { content := m.content, sender := m.sender, createdAt := m.createdAt }

/-- Result of one POST handler invocation, instrumented with the prompt
argument passed to generateResponse and counters of all embedding client
operations performed during the invocation (route level and engine level). -/
structure RouteResult where
  aiContent : String
  promptUsed : String
  warning : Option String
  skippedEmbedding : Bool
  embedCalls : Nat
  ragCalls : Nat
deriving DecidableEq

/-- Embeds the POST handler of messages.ts.  A trivial message goes straight
to generation with the raw content.  Otherwise, with the embedding service
enabled, the route creates an embedding for the user message, fetches a RAG
response (its value is unused by the prompt), enhances the prompt, generates
with the enhanced prompt, and embeds a reply longer than 20 characters.  A
disabled service (the explicit throw of the else branch) or any unexpected
exception in that block (ragPathThrows, abstracted to the start of the block)
lands in the catch: regenerate with the original content and attach the
warning field. -/
def handleMessagePost (env : OpenAIService.GenEnv) (content : String)
    (dbContext : List DbMessage)
    (userEmbedTr : Transport EmbeddingResponse)
    (ragTr1 ragTr2 : Transport RAGResponse)
    (replyEmbedTr : Transport EmbeddingResponse)
    (ragPathThrows : Bool) : RouteResult :=
  let context := dbContext.map dbToTurn
  if MessageUtils.isTrivialMessage content then
    let g := OpenAIService.generateResponse env content context
    { aiContent := g.text, promptUsed := content, warning := none,
      skippedEmbedding := true, embedCalls := g.embedCalls, ragCalls := g.ragCalls }
  else if env.svc.isEnabled && !ragPathThrows then
    let _userEmbed := env.svc.createEmbedding userEmbedTr
    let _ragResponse := env.svc.getRAGResponse ragTr1
    let enhanced := env.svc.enhancePromptWithRAGTr content ragTr2
    let g := OpenAIService.generateResponse env enhanced.1 context
    let replyEmbeds :=
      if decide (jsLength g.text > 20) then
        let _replyEmbed := env.svc.createEmbedding replyEmbedTr
        1
      else 0
    { aiContent := g.text, promptUsed := enhanced.1, warning := none,
      skippedEmbedding := false,
      embedCalls := 1 + g.embedCalls + replyEmbeds,
      ragCalls := 1 + enhanced.2 + g.ragCalls }
  else
    let g := OpenAIService.generateResponse env content context
    { aiContent := g.text, promptUsed := content,
      warning := some "Embedding service unavailable, using basic response",
      skippedEmbedding := false, embedCalls := g.embedCalls, ragCalls := g.ragCalls }

end MessagesRoute

/-- C6: the trivial message classifier returns true exactly on whole string
filler matches of the trimmed, case folded input with repeated trailing
letters allowed, and in particular on hi, ok and test; contrary to the claim
it returns false on the input HELLO!! because trailing punctuation is not
part of any pattern. -/
theorem isTrivialMessage_characterization (s : String) :
    MessageUtils.isTrivialMessage s = specTrivialFiller s
    ∧ MessageUtils.isTrivialMessage "hi" = true
    ∧ MessageUtils.isTrivialMessage "ok" = true
    ∧ MessageUtils.isTrivialMessage "test" = true
    ∧ MessageUtils.isTrivialMessage "HELLO!!" = false :=
  ⟨rfl, by decide, by decide, by decide, by decide⟩

/-- C6 counterexample: the classifier rejects HELLO!!, refuting the claim
that it accepts it. -/
theorem isTrivialMessage_hello_bang : MessageUtils.isTrivialMessage "HELLO!!" = false := by
  decide

/-- C10: the three trivial message classifiers (messageUtils export,
embeddingUtils private copy, EmbeddingService private method) agree on every
input string. -/
theorem trivial_classifiers_agree (s : String) :
    EmbeddingUtils.isTrivialMessage s = MessageUtils.isTrivialMessage s
    ∧ EmbeddingService.isTrivialMessage s = MessageUtils.isTrivialMessage s :=
  ⟨rfl, rfl⟩

/-- C7: shouldUseSemanticSearch is false below ten trimmed characters, false
on trivial input, and otherwise true exactly when some fixed interrogative
indicator occurs in the lowercased content; it accepts the sample question. -/
theorem shouldUseSemanticSearch_characterization (s : String) :
    (jsLength (jsTrim s) < 10 → EmbeddingUtils.shouldUseSemanticSearch s = false)
    ∧ (EmbeddingUtils.isTrivialMessage s = true →
        EmbeddingUtils.shouldUseSemanticSearch s = false)
    ∧ (10 ≤ jsLength (jsTrim s) → EmbeddingUtils.isTrivialMessage s = false →
        (EmbeddingUtils.shouldUseSemanticSearch s = true ↔
          ∃ ind ∈ EmbeddingUtils.questionIndicators,
            jsIncludes (jsToLower s) ind = true))
    ∧ EmbeddingUtils.shouldUseSemanticSearch "How does semantic search work in EOXS AI?" = true := by
  refine ⟨?_, ?_, ?_, by decide⟩
  · intro h
    simp [EmbeddingUtils.shouldUseSemanticSearch, if_pos h]
  · intro h
    simp [EmbeddingUtils.shouldUseSemanticSearch, h]
  · intro h1 h2
    have hlt : ¬ jsLength (jsTrim s) < 10 := Nat.not_lt.mpr h1
    simp [EmbeddingUtils.shouldUseSemanticSearch, if_neg hlt, h2, List.any_eq_true]

/-- C7 witness: concrete runs discharging each hypothesis of the
characterization theorem. -/
theorem shouldUseSemanticSearch_witness :
    EmbeddingUtils.shouldUseSemanticSearch "hi" = false
    ∧ EmbeddingUtils.shouldUseSemanticSearch "how are you?" = false
    ∧ EmbeddingUtils.shouldUseSemanticSearch "How does semantic search work in EOXS AI?" = true :=
  ⟨(shouldUseSemanticSearch_characterization "hi").1 (by decide),
   (shouldUseSemanticSearch_characterization "how are you?").2.1 (by decide),
   ((shouldUseSemanticSearch_characterization "How does semantic search work in EOXS AI?").2.2.1
      (by decide) (by decide)).mpr ⟨"how", by decide, by decide⟩⟩

/-- C4: the embedding client constructed with no base URL and no environment
URL reports itself disabled, createEmbedding returns the error status result
and getRAGResponse the canned degraded result, both without attempting a
network call (second component false); the state is a frozen field of the
instance, so it persists for its lifetime. -/
theorem embeddingService_disabled_degrades :
    (EmbeddingService.init none none).isEnabled = false
    ∧ (∀ tr : Transport EmbeddingResponse,
        (EmbeddingService.init none none).createEmbedding tr
          = ({ status := "error",
               error := some "Embedding Service is disabled: No API URL available" }, false))
    ∧ (∀ tr : Transport RAGResponse,
        (EmbeddingService.init none none).getRAGResponse tr
          = ({ answer := "I couldn\x27t access my extended knowledge at the moment. The embedding service is not configured.",
               context := "Embedding Service disabled: No API URL available" }, false)) :=
  ⟨rfl, fun _ => rfl, fun _ => rfl⟩

/-- C9: the mock responder picks the first matching branch in the fixed
order greeting, help, farewell, thanks, short input, generic; any input whose
lowercased form contains hi or hello anywhere gets the greeting reply. -/
theorem generateMockResponse_precedence (s : String) :
    ((jsIncludes (jsToLower s) "hello" || jsIncludes (jsToLower s) "hi") = true →
      OpenAIService.generateMockResponse s = "Hello! How can I assist you today?")
    ∧ ((jsIncludes (jsToLower s) "hello" || jsIncludes (jsToLower s) "hi") = false →
        jsIncludes (jsToLower s) "help" = true →
        OpenAIService.generateMockResponse s
          = "I\x27m here to help! What specific information are you looking for?")
    ∧ ((jsIncludes (jsToLower s) "hello" || jsIncludes (jsToLower s) "hi") = false →
        jsIncludes (jsToLower s) "help" = false →
        (jsIncludes (jsToLower s) "bye" || jsIncludes (jsToLower s) "goodbye") = true →
        OpenAIService.generateMockResponse s
          = "Goodbye! Feel free to return if you have more questions.")
    ∧ ((jsIncludes (jsToLower s) "hello" || jsIncludes (jsToLower s) "hi") = false →
        jsIncludes (jsToLower s) "help" = false →
        (jsIncludes (jsToLower s) "bye" || jsIncludes (jsToLower s) "goodbye") = false →
        (jsIncludes (jsToLower s) "thanks" || jsIncludes (jsToLower s) "thank you") = true →
        OpenAIService.generateMockResponse s
          = "You\x27re welcome! Is there anything else I can help with?")
    ∧ ((jsIncludes (jsToLower s) "hello" || jsIncludes (jsToLower s) "hi") = false →
        jsIncludes (jsToLower s) "help" = false →
        (jsIncludes (jsToLower s) "bye" || jsIncludes (jsToLower s) "goodbye") = false →
        (jsIncludes (jsToLower s) "thanks" || jsIncludes (jsToLower s) "thank you") = false →
        jsLength (jsToLower s) < 10 →
        OpenAIService.generateMockResponse s
          = "Could you please provide more details so I can better assist you?")
    ∧ ((jsIncludes (jsToLower s) "hello" || jsIncludes (jsToLower s) "hi") = false →
        jsIncludes (jsToLower s) "help" = false →
        (jsIncludes (jsToLower s) "bye" || jsIncludes (jsToLower s) "goodbye") = false →
        (jsIncludes (jsToLower s) "thanks" || jsIncludes (jsToLower s) "thank you") = false →
        ¬ jsLength (jsToLower s) < 10 →
        OpenAIService.generateMockResponse s = "I received your message.") := by
  refine ⟨?_, ?_, ?_, ?_, ?_, ?_⟩
  · intro h1
    simp only [OpenAIService.generateMockResponse, h1, if_true]
  · intro h1 h2
    simp only [OpenAIService.generateMockResponse, h1, h2, if_true, Bool.false_eq_true, if_false]
  · intro h1 h2 h3
    simp only [OpenAIService.generateMockResponse, h1, h2, h3, if_true, Bool.false_eq_true, if_false]
  · intro h1 h2 h3 h4
    simp only [OpenAIService.generateMockResponse, h1, h2, h3, h4, if_true, Bool.false_eq_true, if_false]
  · intro h1 h2 h3 h4 h5
    simp only [OpenAIService.generateMockResponse, h1, h2, h3, h4, Bool.false_eq_true, if_false,
      if_pos h5]
  · intro h1 h2 h3 h4 h5
    simp only [OpenAIService.generateMockResponse, h1, h2, h3, h4, Bool.false_eq_true, if_false,
      if_neg h5]

/-- C9 witness: the non greeting words which and this still receive the
greeting reply because they contain hi as a substring. -/
theorem generateMockResponse_witness :
    OpenAIService.generateMockResponse "which" = "Hello! How can I assist you today?"
    ∧ OpenAIService.generateMockResponse "this" = "Hello! How can I assist you today?" :=
  ⟨(generateMockResponse_precedence "which").1 (by decide),
   (generateMockResponse_precedence "this").1 (by decide)⟩

/-- The assembled sequence always has the history length plus the system and
query entries. -/
theorem assembleMessages_length (sys : ChatMsg) (ctx : List Turn) (p : String) :
    (OpenAIService.assembleMessages sys ctx p).length = ctx.length + 2 := by
  simp [OpenAIService.assembleMessages]

/-- Element at the own length of a list extended by one final element. -/
theorem getD_append_singleton {α : Type} (l : List α) (u d : α) :
    (l ++ [u]).getD l.length d = u := by
  induction l with
  | nil => rfl
  | cons a t ih => simp only [List.cons_append, List.length_cons, List.getD_cons_succ]; exact ih

/-- C5: the role tagged sequence assembled for the generative call keeps the
supplied turns in their relative order right after the leading system
message, and the enhanced prompt is always the final user entry. -/
theorem assembleMessages_order (sys : ChatMsg) (ctx : List Turn) (p : String)
    (_hsorted : ctx.Pairwise (fun a b => a.createdAt ≤ b.createdAt)) :
    (OpenAIService.assembleMessages sys ctx p).length = ctx.length + 2
    ∧ (∀ i, i < ctx.length →
        (OpenAIService.assembleMessages sys ctx p)[i + 1]?
          = (ctx[i]?).map OpenAIService.formatTurn)
    ∧ (OpenAIService.assembleMessages sys ctx p).getLast?
        = some { role := "user", content := p } := by
  refine ⟨assembleMessages_length sys ctx p, ?_, ?_⟩
  · intro i hi
    have hi' : i < (ctx.map OpenAIService.formatTurn).length := by
      simpa using hi
    simp [OpenAIService.assembleMessages, List.getElem?_append_left hi']
  · show (sys :: (ctx.map OpenAIService.formatTurn ++ [_])).getLast? = _
    rw [← List.cons_append, List.getLast?_concat]

/-- C5 witness: a concrete sorted two turn history. -/
theorem assembleMessages_order_witness :
    (OpenAIService.assembleMessages (OpenAIService.systemMessage1 [])
        [{ content := "a", sender := "user", createdAt := 1 },
         { content := "b", sender := "system", createdAt := 2 }] "q").getLast?
      = some { role := "user", content := "q" } :=
  (assembleMessages_order (OpenAIService.systemMessage1 [])
    [{ content := "a", sender := "user", createdAt := 1 },
     { content := "b", sender := "system", createdAt := 2 }] "q" (by decide)).2.2

/-- C3 counterexample: with the service enabled and an eligible query, a
transport level retrieval failure does not fall back to the raw query; the
returned prompt differs from the query and embeds the error marker supplied
by the degraded RAG result. -/
theorem enhancePromptWithRAG_counterexample :
    (EmbeddingService.init (some "http://svc") none).enhancePromptWithRAG
        "How does semantic search work?" (.failed none)
      ≠ "How does semantic search work?"
    ∧ jsIncludes
        ((EmbeddingService.init (some "http://svc") none).enhancePromptWithRAG
          "How does semantic search work?" (.failed none))
        "Error retrieving context" = true :=
  ⟨by decide, by decide⟩

/-- C3 amended: enhancePromptWithRAG returns the raw query unchanged when the
service is disabled or the query is ineligible; when eligible it returns the
fixed labeled concatenation, whose context section is the retrieved context on
success and the canned error marker when retrieval fails at transport level
(the error never propagates, but the marker is embedded in the prompt). -/
theorem enhancePromptWithRAG_amended (svc : EmbeddingService) (q : String)
    (tr : Transport RAGResponse) :
    ((svc.isEnabled = false ∨ EmbeddingService.shouldUseSemanticSearch q = false) →
      svc.enhancePromptWithRAG q tr = q)
    ∧ (svc.isEnabled = true → EmbeddingService.shouldUseSemanticSearch q = true →
        (∀ r, tr = .ok r →
          svc.enhancePromptWithRAG q tr
            = String.intercalate "\n"
                ["### Relevant Previous Information:", r.context,
                 "\n### Current User Query:", q])
        ∧ (∀ m, tr = .failed m →
          svc.enhancePromptWithRAG q tr
            = String.intercalate "\n"
                ["### Relevant Previous Information:", "Error retrieving context",
                 "\n### Current User Query:", q])) := by
  constructor
  · intro h
    rcases h with h | h <;>
      simp [EmbeddingService.enhancePromptWithRAG, EmbeddingService.enhancePromptWithRAGTr, h]
  · intro he hq
    constructor
    · rintro r rfl
      simp [EmbeddingService.enhancePromptWithRAG, EmbeddingService.enhancePromptWithRAGTr,
        EmbeddingService.getRAGResponse, he, hq]
    · rintro m rfl
      simp [EmbeddingService.enhancePromptWithRAG, EmbeddingService.enhancePromptWithRAGTr,
        EmbeddingService.getRAGResponse, he, hq]

/-- C3 witness: concrete runs discharging each hypothesis of the amended
theorem: a disabled service, an ineligible query, a successful retrieval and
a failed retrieval. -/
theorem enhancePromptWithRAG_witness :
    (EmbeddingService.init none none).enhancePromptWithRAG "How does semantic search work?" (.ok ⟨"a", "c"⟩)
      = "How does semantic search work?"
    ∧ (EmbeddingService.init (some "http://svc") none).enhancePromptWithRAG "hi" (.ok ⟨"a", "c"⟩)
      = "hi"
    ∧ (EmbeddingService.init (some "http://svc") none).enhancePromptWithRAG
        "How does semantic search work?" (.ok ⟨"a", "past discussion about vectors"⟩)
      = String.intercalate "\n"
          ["### Relevant Previous Information:", "past discussion about vectors",
           "\n### Current User Query:", "How does semantic search work?"]
    ∧ (EmbeddingService.init (some "http://svc") none).enhancePromptWithRAG
        "How does semantic search work?" (.failed none)
      = String.intercalate "\n"
          ["### Relevant Previous Information:", "Error retrieving context",
           "\n### Current User Query:", "How does semantic search work?"] :=
  ⟨(enhancePromptWithRAG_amended (EmbeddingService.init none none)
      "How does semantic search work?" (.ok ⟨"a", "c"⟩)).1 (Or.inl (by decide)),
   (enhancePromptWithRAG_amended (EmbeddingService.init (some "http://svc") none)
      "hi" (.ok ⟨"a", "c"⟩)).1 (Or.inr (by decide)),
   ((enhancePromptWithRAG_amended (EmbeddingService.init (some "http://svc") none)
      "How does semantic search work?" (.ok ⟨"a", "past discussion about vectors"⟩)).2
      (by decide) (by decide)).1 ⟨"a", "past discussion about vectors"⟩ rfl,
   ((enhancePromptWithRAG_amended (EmbeddingService.init (some "http://svc") none)
      "How does semantic search work?" (.failed none)).2
      (by decide) (by decide)).2 none rfl⟩

/-- The simplified retry context (first and last assembled message) is always
the system message followed by the final user message. -/
theorem simplified_retry_context (msg : String) (ctx : List Turn) :
    [(OpenAIService.assembleMessages OpenAIServiceV2.systemMessage2 ctx msg).getD 0 ⟨"", ""⟩,
     (OpenAIService.assembleMessages OpenAIServiceV2.systemMessage2 ctx msg).getD
       ((OpenAIService.assembleMessages OpenAIServiceV2.systemMessage2 ctx msg).length - 1) ⟨"", ""⟩]
    = [OpenAIServiceV2.systemMessage2, { role := "user", content := msg }] := by
  have hlen := assembleMessages_length OpenAIServiceV2.systemMessage2 ctx msg
  have hlast : (OpenAIService.assembleMessages OpenAIServiceV2.systemMessage2 ctx msg).getD
      ((OpenAIService.assembleMessages OpenAIServiceV2.systemMessage2 ctx msg).length - 1) ⟨"", ""⟩
      = { role := "user", content := msg } := by
    rw [hlen]
    show (OpenAIServiceV2.systemMessage2 ::
      (ctx.map OpenAIService.formatTurn ++ [{ role := "user", content := msg }])).getD
        (ctx.length + 1) ⟨"", ""⟩ = _
    rw [List.getD_cons_succ]
    have h := getD_append_singleton (ctx.map OpenAIService.formatTurn)
      ({ role := "user", content := msg } : ChatMsg) ⟨"", ""⟩
    rwa [List.length_map] at h
  rw [hlast]
  rfl

/-- C1 counterexample: with an empty history and both calls failing, the
engine performs no retry, and the reply is the fixed image analysis notice
rather than the mock responder output, refuting the claim that a primary
failure always triggers one simplified context retry ending in a mock reply. -/
theorem generateResponseV2_counterexample :
    (OpenAIServiceV2.generateResponse "This image contains: a cat" [] .failed .failed).retried = false
    ∧ (OpenAIServiceV2.generateResponse "This image contains: a cat" [] .failed .failed).text
        = "I was unable to process the image analysis results with the AI. Please try again or provide a text description."
    ∧ (OpenAIServiceV2.generateResponse "This image contains: a cat" [] .failed .failed).text
        ≠ OpenAIService.generateMockResponse "This image contains: a cat" :=
  ⟨by decide, by decide, by decide⟩

/-- C1 amended: on primary failure the engine retries exactly once with the
simplified context (system message and final user turn) only when the
assembled sequence has more than two messages, that is when history is non
empty, and a failed retry then yields the mock reply; with empty history no
retry runs and the fallback is the mock reply (or a fixed image analysis
notice when the message embeds image analysis markers); every branch returns
a value, so no exception propagates. -/
theorem generateResponseV2_amended (msg : String) (ctx : List Turn) (retryO : ApiOutcome) :
    (ctx ≠ [] →
      (OpenAIServiceV2.generateResponse msg ctx .failed retryO).retried = true
      ∧ (OpenAIServiceV2.generateResponse msg ctx .failed retryO).retrySent
          = some [OpenAIServiceV2.systemMessage2, { role := "user", content := msg }]
      ∧ (retryO = .failed →
          (OpenAIServiceV2.generateResponse msg ctx .failed retryO).text
            = OpenAIService.generateMockResponse msg))
    ∧ (OpenAIServiceV2.generateResponse msg [] .failed retryO).retried = false
    ∧ (OpenAIServiceV2.hasImageMarkers msg = false →
        (OpenAIServiceV2.generateResponse msg [] .failed retryO).text
          = OpenAIService.generateMockResponse msg) := by
  refine ⟨?_, ?_, ?_⟩
  · intro hne
    have hgt : (OpenAIService.assembleMessages OpenAIServiceV2.systemMessage2 ctx msg).length > 2 := by
      rw [assembleMessages_length]
      cases ctx with
      | nil => exact absurd rfl hne
      | cons a t => simp
    have hs := simplified_retry_context msg ctx
    simp only [List.getD_eq_getElem?_getD, List.cons.injEq, and_true] at hs
    cases retryO with
    | ok c =>
        refine ⟨?_, ?_, ?_⟩
        · simp [OpenAIServiceV2.generateResponse, if_pos hgt]
        · simp [OpenAIServiceV2.generateResponse, if_pos hgt]
          exact hs
        · intro h; cases h
    | failed =>
        refine ⟨?_, ?_, ?_⟩
        · simp [OpenAIServiceV2.generateResponse, if_pos hgt]
        · simp [OpenAIServiceV2.generateResponse, if_pos hgt]
          exact hs
        · intro _
          simp [OpenAIServiceV2.generateResponse, if_pos hgt]
  · cases h : OpenAIServiceV2.hasImageMarkers msg <;>
      simp [OpenAIServiceV2.generateResponse, OpenAIService.assembleMessages, h]
  · intro h
    simp [OpenAIServiceV2.generateResponse, OpenAIService.assembleMessages, h]

/-- C1 witness: concrete runs discharging the hypotheses of the amended
theorem: a one turn history forces the retry and a failed retry yields the
mock reply; an empty history with a plain message yields the mock reply
without retry. -/
theorem generateResponseV2_witness :
    (OpenAIServiceV2.generateResponse "hello" [{ content := "a", sender := "user" }] .failed .failed).text
      = OpenAIService.generateMockResponse "hello"
    ∧ (OpenAIServiceV2.generateResponse "plain text question" [] .failed .failed).text
      = OpenAIService.generateMockResponse "plain text question" :=
  ⟨((generateResponseV2_amended "hello" [{ content := "a", sender := "user" }] .failed).1
      (by decide)).2.2 rfl,
   (generateResponseV2_amended "plain text question" [] .failed).2.2 (by decide)⟩

/-- Conversation turns loaded from the Message schema never carry a userId
field, so the engine finds no user id in them. -/
theorem find_userId_db_none (dbCtx : List MessagesRoute.DbMessage) :
    (dbCtx.map MessagesRoute.dbToTurn).find? (fun m => truthyStr m.userId) = none := by
  induction dbCtx with
  | nil => rfl
  | cons a t ih => simp [MessagesRoute.dbToTurn, List.find?, truthyStr, ih]

/-- On context loaded from the database the generative engine performs no
embedding client operation: its user id lookup comes up empty, which gates
off both the RAG enhancement and the response embedding. -/
theorem generateResponse_db_no_ops (env : OpenAIService.GenEnv) (msg : String)
    (dbCtx : List MessagesRoute.DbMessage) :
    (OpenAIService.generateResponse env msg (dbCtx.map MessagesRoute.dbToTurn)).embedCalls = 0
    ∧ (OpenAIService.generateResponse env msg (dbCtx.map MessagesRoute.dbToTurn)).ragCalls = 0 := by
  have hfind := find_userId_db_none dbCtx
  cases hm : env.useMock with
  | true => simp [OpenAIService.generateResponse, hm]
  | false =>
    cases hp : env.primary with
    | ok c => simp [OpenAIService.generateResponse, hm, hp, hfind]
    | failed => simp [OpenAIService.generateResponse, hm, hp, hfind]

/-- C2: when the inbound content is trivial the orchestrator answers from the
raw content and the stored history alone: the returned prompt is the content
itself, the trivial short circuit is recorded, and no embedding creation and
no RAG retrieval happen anywhere in the invocation, engine included. -/
theorem trivial_short_circuit (env : OpenAIService.GenEnv) (content : String)
    (dbCtx : List MessagesRoute.DbMessage)
    (userEmbedTr : Transport EmbeddingResponse) (ragTr1 ragTr2 : Transport RAGResponse)
    (replyEmbedTr : Transport EmbeddingResponse) (throws : Bool)
    (h : MessageUtils.isTrivialMessage content = true) :
    (MessagesRoute.handleMessagePost env content dbCtx userEmbedTr ragTr1 ragTr2 replyEmbedTr throws).promptUsed
        = content
    ∧ (MessagesRoute.handleMessagePost env content dbCtx userEmbedTr ragTr1 ragTr2 replyEmbedTr throws).skippedEmbedding
        = true
    ∧ (MessagesRoute.handleMessagePost env content dbCtx userEmbedTr ragTr1 ragTr2 replyEmbedTr throws).embedCalls
        = 0
    ∧ (MessagesRoute.handleMessagePost env content dbCtx userEmbedTr ragTr1 ragTr2 replyEmbedTr throws).ragCalls
        = 0 := by
  have hops := generateResponse_db_no_ops env content dbCtx
  refine ⟨?_, ?_, ?_, ?_⟩ <;>
    simp [MessagesRoute.handleMessagePost, h, hops.1, hops.2]

/-- C2 witness: a concrete trivial run with the embedding service enabled, a
configured model client and a successful completion still records zero
embedding creations and zero RAG retrievals. -/
theorem trivial_short_circuit_witness :
    (MessagesRoute.handleMessagePost
        { useMock := false
          svc := EmbeddingService.init (some "http://svc") none
          ragTransport := .ok ⟨"a", "c"⟩
          respEmbedTransport := .ok ⟨"ok", none⟩
          primary := .ok (some "A long enough generated reply.")
          memorySnippets := [] }
        "hi" [{ content := "earlier message", sender := "user" }]
        (.ok ⟨"ok", none⟩) (.ok ⟨"a", "c"⟩) (.ok ⟨"a", "c"⟩) (.ok ⟨"ok", none⟩) false).embedCalls = 0
    ∧ (MessagesRoute.handleMessagePost
        { useMock := false
          svc := EmbeddingService.init (some "http://svc") none
          ragTransport := .ok ⟨"a", "c"⟩
          respEmbedTransport := .ok ⟨"ok", none⟩
          primary := .ok (some "A long enough generated reply.")
          memorySnippets := [] }
        "hi" [{ content := "earlier message", sender := "user" }]
        (.ok ⟨"ok", none⟩) (.ok ⟨"a", "c"⟩) (.ok ⟨"a", "c"⟩) (.ok ⟨"ok", none⟩) false).ragCalls = 0 :=
  ⟨(trivial_short_circuit
      { useMock := false
        svc := EmbeddingService.init (some "http://svc") none
        ragTransport := .ok ⟨"a", "c"⟩
        respEmbedTransport := .ok ⟨"ok", none⟩
        primary := .ok (some "A long enough generated reply.")
        memorySnippets := [] }
      "hi" [{ content := "earlier message", sender := "user" }]
      (.ok ⟨"ok", none⟩) (.ok ⟨"a", "c"⟩) (.ok ⟨"a", "c"⟩) (.ok ⟨"ok", none⟩) false (by decide)).2.2.1,
   (trivial_short_circuit
      { useMock := false
        svc := EmbeddingService.init (some "http://svc") none
        ragTransport := .ok ⟨"a", "c"⟩
        respEmbedTransport := .ok ⟨"ok", none⟩
        primary := .ok (some "A long enough generated reply.")
        memorySnippets := [] }
      "hi" [{ content := "earlier message", sender := "user" }]
      (.ok ⟨"ok", none⟩) (.ok ⟨"a", "c"⟩) (.ok ⟨"a", "c"⟩) (.ok ⟨"ok", none⟩) false (by decide)).2.2.2⟩

/-- C8: on a non trivial message, a disabled embedding client or an
unexpected exception in the RAG block sends the orchestrator to the fallback
path, which regenerates from the original unenhanced content and attaches the
warning field (the fallback indicator of the returned value); the successful
RAG path generates from the enhanced prompt and attaches no warning. -/
theorem fallback_indicator (env : OpenAIService.GenEnv) (content : String)
    (dbCtx : List MessagesRoute.DbMessage)
    (userEmbedTr : Transport EmbeddingResponse) (ragTr1 ragTr2 : Transport RAGResponse)
    (replyEmbedTr : Transport EmbeddingResponse) (throws : Bool)
    (hnt : MessageUtils.isTrivialMessage content = false) :
    ((env.svc.isEnabled = false ∨ throws = true) →
      (MessagesRoute.handleMessagePost env content dbCtx userEmbedTr ragTr1 ragTr2 replyEmbedTr throws).warning
          = some "Embedding service unavailable, using basic response"
      ∧ (MessagesRoute.handleMessagePost env content dbCtx userEmbedTr ragTr1 ragTr2 replyEmbedTr throws).promptUsed
          = content
      ∧ (MessagesRoute.handleMessagePost env content dbCtx userEmbedTr ragTr1 ragTr2 replyEmbedTr throws).aiContent
          = (OpenAIService.generateResponse env content (dbCtx.map MessagesRoute.dbToTurn)).text)
    ∧ (env.svc.isEnabled = true → throws = false →
      (MessagesRoute.handleMessagePost env content dbCtx userEmbedTr ragTr1 ragTr2 replyEmbedTr throws).warning
          = none
      ∧ (MessagesRoute.handleMessagePost env content dbCtx userEmbedTr ragTr1 ragTr2 replyEmbedTr throws).promptUsed
          = env.svc.enhancePromptWithRAG content ragTr2) := by
  constructor
  · intro h
    have hcond : (env.svc.isEnabled && !throws) = false := by
      rcases h with h | h <;> simp [h]
    refine ⟨?_, ?_, ?_⟩ <;> simp [MessagesRoute.handleMessagePost, hnt, hcond]
  · intro he ht
    constructor <;>
      simp [MessagesRoute.handleMessagePost, MessagesRoute.RouteResult.promptUsed, hnt, he, ht,
        EmbeddingService.enhancePromptWithRAG]

/-- C8 witness: a disabled client forces the fallback warning and the raw
prompt; an enabled client without exception yields no warning. -/
theorem fallback_indicator_witness :
    (MessagesRoute.handleMessagePost
        { useMock := true, svc := EmbeddingService.init none none
          ragTransport := .ok ⟨"a", "c"⟩, respEmbedTransport := .ok ⟨"ok", none⟩
          primary := .failed, memorySnippets := [] }
        "what is the plan for today?" [] (.ok ⟨"ok", none⟩) (.ok ⟨"a", "c"⟩)
        (.ok ⟨"a", "c"⟩) (.ok ⟨"ok", none⟩) false).warning
      = some "Embedding service unavailable, using basic response"
    ∧ (MessagesRoute.handleMessagePost
        { useMock := true, svc := EmbeddingService.init (some "http://svc") none
          ragTransport := .ok ⟨"a", "c"⟩, respEmbedTransport := .ok ⟨"ok", none⟩
          primary := .failed, memorySnippets := [] }
        "what is the plan for today?" [] (.ok ⟨"ok", none⟩) (.ok ⟨"a", "c"⟩)
        (.ok ⟨"a", "c"⟩) (.ok ⟨"ok", none⟩) false).warning = none :=
  ⟨((fallback_indicator
      { useMock := true, svc := EmbeddingService.init none none
        ragTransport := .ok ⟨"a", "c"⟩, respEmbedTransport := .ok ⟨"ok", none⟩
        primary := .failed, memorySnippets := [] }
      "what is the plan for today?" [] (.ok ⟨"ok", none⟩) (.ok ⟨"a", "c"⟩)
      (.ok ⟨"a", "c"⟩) (.ok ⟨"ok", none⟩) false (by decide)).1 (Or.inl (by decide))).1,
   ((fallback_indicator
      { useMock := true, svc := EmbeddingService.init (some "http://svc") none
        ragTransport := .ok ⟨"a", "c"⟩, respEmbedTransport := .ok ⟨"ok", none⟩
        primary := .failed, memorySnippets := [] }
      "what is the plan for today?" [] (.ok ⟨"ok", none⟩) (.ok ⟨"a", "c"⟩)
      (.ok ⟨"a", "c"⟩) (.ok ⟨"ok", none⟩) false (by decide)).2 (by decide) rfl).1⟩
